import Mathlib

/-!
Verification of the payload submission pipeline
(`src/oracle/services/submission-batch.service.ts` — `SubmissionBatchService`,
and the companion `SubmitterService`).

The TypeScript services are shallowly embedded as pure Lean functions:
  * database state (the TypeORM repository of `SignedPayload` rows) is an
    explicit `List Payload` threaded through each operation;
  * timestamps (`Date`) are integers (epoch milliseconds);
  * the chain client (`ethers` contract call) is an oracle
    `chain : Nat → Except String String` giving, for each attempt number,
    either the thrown error message or the returned transaction hash;
  * `async` methods become functions returning an outcome record that also
    reports the repository saves performed, the number of chain submission
    calls issued, and whether background confirmation monitoring was started;
  * JavaScript string truthiness (`!payload.signature`) is modelled on
    `Option String` (`none` = SQL NULL, `some ""` = empty string, both falsy);
  * floating-point delay arithmetic (`Math.pow`, `Math.min`) is modelled
    over `ℚ`.
-/

/-- Status enum of a `SignedPayload` row (`signed-payload.entity.ts`). -/
inductive PayloadStatus
  | PENDING
  | SUBMITTED
  | CONFIRMED
  | FAILED
deriving DecidableEq, Repr

/-- Failure classification (`FailureType` in `submission-batch.service.ts`). -/
inductive FailureType
  | RETRYABLE
  | PERMANENT
deriving DecidableEq, Repr

/-- The `SignedPayload` entity, restricted to the fields the pipeline reads or
writes.  `blockNumber`, `confirmedAt` and `metadata` are only touched by the
detached confirmation monitor, which is outside this embedding. -/
structure Payload where
  id : String
  payloadType : String
  payloadHash : String
  nonce : String
  signature : Option String
  expiresAt : Int
  status : PayloadStatus
  transactionHash : Option String
  submissionAttempts : Nat
  errorMessage : Option String
  createdAt : Int
  updatedAt : Int
  submittedAt : Option Int
deriving DecidableEq, Repr

/-- JavaScript truthiness of a nullable string field: `null`, `undefined` and
the empty string are falsy, every other string is truthy. -/
def truthy : Option String → Bool
  | none => false
  | some s => !(s == "")

/-- JavaScript `x || d` on an optional numeric argument: `undefined` and `0`
are falsy and fall back to the default (used for `limit || this.batchSize`
and `maxConcurrent || 5`). -/
def jsOr (x : Option Nat) (d : Nat) : Nat :=
  match x with
  | none => d
  | some n => if n = 0 then d else n

/-- Does the list `s` start with the list `pat`? (helper for substring search). -/
def startsWith : List Char → List Char → Bool
  | _, [] => true
  | [], _ :: _ => false
  | c :: s, d :: pat => c == d && startsWith s pat

/-- Does `s` contain `pat` as a contiguous sublist?  This is JavaScript's
`String.prototype.includes` on the underlying character lists. -/
def containsSubstring (pat : List Char) : List Char → Bool
  | [] => startsWith [] pat
  | c :: rest => startsWith (c :: rest) pat || containsSubstring pat rest

/-- JavaScript `s.includes(pat)`. -/
def jsIncludes (s pat : String) : Bool :=
  containsSubstring pat.data s.data

/-- JavaScript `s.toLowerCase()` (ASCII case mapping suffices for the
pattern lists used by the classifier). -/
def jsToLowerCase (s : String) : String :=
  ⟨s.data.map Char.toLower⟩

/-- Permanent-failure substrings checked first by `categorizeFailure`
(identical lists in `SubmissionBatchService` and `SubmitterService`). -/
def permanentPatterns : List String :=
  ["expired", "invalid signature", "unauthorized", "insufficient funds",
   "nonce too low", "already submitted", "execution reverted", "vm exception"]

/-- Retryable-failure substrings checked second by `categorizeFailure`. -/
def retryablePatterns : List String :=
  ["network error", "timeout", "econnreset", "socket hang up",
   "temporary", "service unavailable", "gateway error", "rate limit"]

/-- Classifier `categorizeFailure(error)` of the error-message text.  The
function body is textually identical in `SubmissionBatchService` and
`SubmitterService`; it lower-cases the message, scans the permanent list
first (first match returns PERMANENT), then the retryable list, and defaults
to RETRYABLE. -/
def categorizeFailure (message : String) : FailureType :=
  let m := jsToLowerCase message
  if permanentPatterns.any (fun pat => jsIncludes m pat) then
    FailureType.PERMANENT
  else if retryablePatterns.any (fun pat => jsIncludes m pat) then
    FailureType.RETRYABLE
  else
    FailureType.RETRYABLE

/-- Predicate `isRetryableError(errorMessage)` of `SubmissionBatchService`. -/
def isRetryableError (errorMessage : String) : Bool :=
  match categorizeFailure errorMessage with
  | FailureType.RETRYABLE => true
  | FailureType.PERMANENT => false

/-- Backoff configuration of `SubmissionBatchService` (fields
`initialRetryDelayMs`, `maxRetryDelayMs`, `retryBackoffMultiplier`). -/
structure BatchRetryConfig where
  initialRetryDelayMs : ℚ
  maxRetryDelayMs : ℚ
  retryBackoffMultiplier : ℚ
deriving DecidableEq

/-- Backoff configuration of `SubmitterService` (fields `initialRetryDelay`,
`maxRetryDelay`, `backoffMultiplier`). -/
structure SubmitterRetryConfig where
  initialRetryDelay : ℚ
  maxRetryDelay : ℚ
  backoffMultiplier : ℚ
deriving DecidableEq

namespace SubmissionBatch

/-- Method `calculateRetryDelay(attempt)` of `SubmissionBatchService`:
`Math.min(initialRetryDelayMs * retryBackoffMultiplier ^ (attempt - 1),
maxRetryDelayMs)`. -/
def calculateRetryDelay (cfg : BatchRetryConfig) (attempt : Nat) : ℚ :=
  min (cfg.initialRetryDelayMs * cfg.retryBackoffMultiplier ^ (attempt - 1))
    cfg.maxRetryDelayMs

end SubmissionBatch

namespace Submitter

/-- Method `calculateRetryDelay(attempt)` of `SubmitterService`:
`Math.min(initialRetryDelay * backoffMultiplier ^ (attempt - 1),
maxRetryDelay)`. -/
def calculateRetryDelay (cfg : SubmitterRetryConfig) (attempt : Nat) : ℚ :=
  min (cfg.initialRetryDelay * cfg.backoffMultiplier ^ (attempt - 1))
    cfg.maxRetryDelay

end Submitter

/-- Service-level configuration of `SubmissionBatchService` (environment
defaults: batchSize 10, maxRetries 5, preserveOrder true). -/
structure BatchServiceConfig where
  batchSize : Nat
  maxRetries : Nat
  preserveOrder : Bool
deriving DecidableEq

/-- Repository `save(payload)`: last-write-wins replacement of the stored row
with the same id.  Every save performed by the pipeline targets a record
previously loaded from the store, so the insert half of the upsert never
arises and is omitted. -/
def saveRecord (store : List Payload) (p : Payload) : List Payload :=
  store.map (fun q => if q.id == p.id then p else q)

/-- Method `markAsFailed(payloadId, errorMessage, failureType, attemptNumber)`
of `SubmissionBatchService`: loads the record and, when found, persists it
with status FAILED, the error message, and `submissionAttempts` overwritten by
the `attemptNumber` argument (whose TypeScript default is 1; call sites that
omit it pass 1 here).  The `failureType` argument is only logged. -/
def markAsFailed (store : List Payload) (payloadId : String) (errorMessage : String)
    (_failureType : FailureType) (attemptNumber : Nat) : List Payload :=
  match store.find? (fun p => p.id == payloadId) with
  | none => store
  | some payload =>
    saveRecord store
      { payload with
        status := PayloadStatus.FAILED
        errorMessage := some errorMessage
        submissionAttempts := attemptNumber }

/-- Outcome of `getPayloadsForBatching`: the selected payloads, the store
after the `markAsFailed` calls fired on expired candidates, the in-flight set
after the optional marking of selected payloads, and the list of
`markAsFailed(id, message, ...)` invocations issued. -/
structure BatchSelectOutcome where
  selected : List Payload
  store : List Payload
  inFlight : List String
  failedMarks : List (String × String)
deriving DecidableEq

/-- Method `getPayloadsForBatching(limit)` of `SubmissionBatchService`: the
repository query selects rows with status PENDING and `signature IN (NULL,
'')`, ordered by `createdAt` ascending (the store list is taken to be in that
order) and limited to twice the batch size; expired candidates are marked
FAILED via `markAsFailed` and dropped, in-flight candidates are dropped, the
first `batchSize` survivors are returned and (when `preserveOrder` is set)
marked in-flight. -/
def getPayloadsForBatching (cfg : BatchServiceConfig) (inFlight : List String)
    (nowMs : Int) (store : List Payload) (limit : Option Nat) : BatchSelectOutcome :=
  let batchSize := jsOr limit cfg.batchSize
  let payloads :=
    (store.filter (fun p =>
      decide (p.status = PayloadStatus.PENDING) &&
        (decide (p.signature = none) || decide (p.signature = some ("")))))
      |>.take (batchSize * 2)
  let expired := payloads.filter (fun p => decide (p.expiresAt < nowMs))
  let validPayloads :=
    payloads.filter (fun p => !decide (p.expiresAt < nowMs) && !inFlight.contains p.id)
  let result := validPayloads.take batchSize
  let store' :=
    expired.foldl
      (fun st p =>
        markAsFailed st p.id ("Payload expired before batch submission")
          FailureType.PERMANENT 1)
      store
  let inFlight' := if cfg.preserveOrder then result.map (fun p => p.id) ++ inFlight else inFlight
  ⟨result, store', inFlight',
    expired.map (fun p => (p.id, ("Payload expired before batch submission")))⟩

/-- Outcome of `validatePayloadsForBatch`: the accepted payloads in traversal
order, the `markAsFailed(id, message, ...)` invocations issued, and the
in-flight set after marking accepted payloads. -/
structure ValidateOutcome where
  valid : List Payload
  failedMarks : List (String × String)
  inFlight : List String
deriving DecidableEq

/-- Method `validatePayloadsForBatch(payloadIds)` of `SubmissionBatchService`,
applied to the list of records the repository returned for the requested ids.
Per record, in source order: an expired record is marked FAILED ("Payload
expired") and skipped; a CONFIRMED or SUBMITTED record is skipped; a record
with falsy signature is marked FAILED ("Payload has no signature") and
skipped; an in-flight record is skipped; otherwise the record is accepted and
marked in-flight. -/
def validatePayloadsForBatch (nowMs : Int) :
    List Payload → List String → ValidateOutcome
  | [], inFlight => ⟨[], [], inFlight⟩
  | payload :: rest, inFlight =>
    if payload.expiresAt < nowMs then
      let r := validatePayloadsForBatch nowMs rest inFlight
      ⟨r.valid, (payload.id, ("Payload expired")) :: r.failedMarks, r.inFlight⟩
    else if payload.status = PayloadStatus.CONFIRMED ∨
        payload.status = PayloadStatus.SUBMITTED then
      validatePayloadsForBatch nowMs rest inFlight
    else if truthy payload.signature = false then
      let r := validatePayloadsForBatch nowMs rest inFlight
      ⟨r.valid, (payload.id, ("Payload has no signature")) :: r.failedMarks, r.inFlight⟩
    else if payload.id ∈ inFlight then
      validatePayloadsForBatch nowMs rest inFlight
    else
      let r := validatePayloadsForBatch nowMs rest (payload.id :: inFlight)
      ⟨payload :: r.valid, r.failedMarks, r.inFlight⟩

/-- Per-payload result record (`SubmissionResult` interface). -/
structure SubmissionResult where
  payloadId : String
  success : Bool
  transactionHash : Option String
  errorMessage : Option String
  failureType : Option FailureType
  attemptNumber : Nat
deriving DecidableEq, Repr

/-- Method `processSequentially(payloads, batchId)`: iterates the validated
payloads in order, awaiting `this.submitPayload` per item (abstracted by the
`submit` parameter, since its body is an explicit chain-call placeholder) and
pushing one result per payload; a thrown error is caught, classified, and
recorded as a failure result (the accompanying `markAsFailed` store write is
covered by the `markAsFailed` model above). -/
def processSequentially (submit : Payload → Except String String)
    (payloads : List Payload) : List SubmissionResult :=
  payloads.map (fun payload =>
    match submit payload with
    | Except.ok txHash =>
      { payloadId := payload.id
        success := true
        transactionHash := some txHash
        errorMessage := none
        failureType := none
        attemptNumber := 1 }
    | Except.error msg =>
      { payloadId := payload.id
        success := false
        transactionHash := none
        errorMessage := some msg
        failureType := some (categorizeFailure msg)
        attemptNumber := 1 })

/-- Method `processConcurrently(payloads, batchId)`: `Promise.allSettled` over
`this.submitPayload` for each payload, mapped back positionally to one result
per payload (fulfilled entries become successes, rejected ones failures).
The settled-value mapping is the same as the sequential one; the difference
in the source is only scheduling. -/
def processConcurrently (submit : Payload → Except String String)
    (payloads : List Payload) : List SubmissionResult :=
  payloads.map (fun payload =>
    match submit payload with
    | Except.ok txHash =>
      { payloadId := payload.id
        success := true
        transactionHash := some txHash
        errorMessage := none
        failureType := none
        attemptNumber := 1 }
    | Except.error msg =>
      { payloadId := payload.id
        success := false
        transactionHash := none
        errorMessage := some msg
        failureType := some (categorizeFailure msg)
        attemptNumber := 1 })

/-- Batch result record (`BatchSubmissionResult` interface).  The wall-clock
`totalTimeMs` field is not modelled. -/
structure BatchSubmissionResult where
  batchId : String
  results : List SubmissionResult
  totalPayloads : Nat
  successfulPayloads : Nat
  failedPayloads : Nat
deriving DecidableEq, Repr

/-- Method `processBatch(payloadIds, batchId)`: fetches the records for the
given ids (a TypeORM `In` query, which returns matching rows in store order,
not in the order of the id list), validates them, and on a nonempty validated
list dispatches sequentially or concurrently according to `preserveOrder`,
aggregating counts.  The generated batch id is taken as a parameter. -/
def processBatch (cfg : BatchServiceConfig) (submit : Payload → Except String String)
    (inFlight : List String) (nowMs : Int) (store : List Payload)
    (payloadIds : List String) (batchId : String) : BatchSubmissionResult :=
  let found :=
    if payloadIds.isEmpty then []
    else store.filter (fun p => payloadIds.contains p.id)
  let v := validatePayloadsForBatch nowMs found inFlight
  let payloads := v.valid
  if payloads.isEmpty then
    { batchId := batchId
      results := []
      totalPayloads := 0
      successfulPayloads := 0
      failedPayloads := 0 }
  else
    let results :=
      if cfg.preserveOrder then processSequentially submit payloads
      else processConcurrently submit payloads
    { batchId := batchId
      results := results
      totalPayloads := payloads.length
      successfulPayloads := (results.filter (fun r => r.success)).length
      failedPayloads := (results.filter (fun r => !r.success)).length }

/-- Method `getRetryablePayloads(limit)`: fetches FAILED rows (ordered by
`updatedAt` ascending, abstracted as store order, limited by
`limit || batchSize`) and keeps those whose last error classifies retryable,
whose attempts are below `maxRetries`, and whose `updatedAt` lies within the
trailing 24-hour window. -/
def getRetryablePayloads (cfg : BatchServiceConfig) (nowMs : Int)
    (store : List Payload) (limit : Option Nat) : List Payload :=
  let maxAge := nowMs - 24 * 60 * 60 * 1000
  let payloads :=
    (store.filter (fun p => decide (p.status = PayloadStatus.FAILED)))
      |>.take (jsOr limit cfg.batchSize)
  payloads.filter (fun p =>
    isRetryableError (p.errorMessage.getD ("")) &&
      decide (p.submissionAttempts < cfg.maxRetries) &&
      decide (maxAge < p.updatedAt))

/-- Chunked dispatch loop of `retryFailedPayloads`: process the payload list
in slices of `maxConcurrentBatches`, appending the chunk results in order.
The source `for` loop advances its index by the chunk size each iteration;
the `fuel` argument (instantiated with the list length, an upper bound on the
iteration count whenever the chunk size is at least 1) makes the recursion
structural. -/
def runChunks (run : Payload → SubmissionResult) (maxConcurrentBatches : Nat) :
    Nat → List Payload → List SubmissionResult
  | _, [] => []
  | 0, _ :: _ => []
  | fuel + 1, p :: rest =>
    ((p :: rest).take maxConcurrentBatches).map run ++
      runChunks run maxConcurrentBatches fuel ((p :: rest).drop maxConcurrentBatches)

/-- Method `retryFailedPayloads(payloadIds?, maxConcurrent?)`: selects either
the records for the explicitly given ids or the retryable FAILED records,
returns an empty zero-count result when none are found, and otherwise
processes the selection through `processWithRetry` (abstracted by the `run`
parameter, which always resolves to a `SubmissionResult`) in chunks of
`maxConcurrent || 5`, aggregating counts. -/
def retryFailedPayloads (cfg : BatchServiceConfig) (run : Payload → SubmissionResult)
    (nowMs : Int) (store : List Payload) (payloadIds : Option (List String))
    (maxConcurrent : Option Nat) (batchId : String) : BatchSubmissionResult :=
  let payloads :=
    match payloadIds with
    | some ids =>
      if ids.isEmpty then getRetryablePayloads cfg nowMs store none
      else store.filter (fun p => ids.contains p.id)
    | none => getRetryablePayloads cfg nowMs store none
  if payloads.isEmpty then
    { batchId := batchId
      results := []
      totalPayloads := 0
      successfulPayloads := 0
      failedPayloads := 0 }
  else
    let maxConcurrentBatches := jsOr maxConcurrent 5
    let results := runChunks run maxConcurrentBatches payloads.length payloads
    { batchId := batchId
      results := results
      totalPayloads := payloads.length
      successfulPayloads := (results.filter (fun r => r.success)).length
      failedPayloads := (results.filter (fun r => !r.success)).length }

/-- Retry-bound configuration of `SubmitterService` (environment default:
maxRetries 5).  The backoff delays are modelled by `SubmitterRetryConfig`;
the gas-limit multiplier only scales the gas estimate and is not modelled. -/
structure SubmitterConfig where
  maxRetries : Nat
deriving DecidableEq

/-- Errors surfaced by `SubmitterService.submitPayload` and
`retrySubmission`: the four `BadRequestException` validation errors, the
exceeded-max-retries rejection of `retrySubmission`, and a rethrown chain
error carrying the chain client's message. -/
inductive SubmitError
  | notFound
  | notPending
  | notSigned
  | expired
  | exceededMaxRetries
  | chainError (msg : String)
deriving DecidableEq, Repr

/-- Observable outcome of a `SubmitterService` call: the returned transaction
hash or raised error, the repository saves performed in order, the number of
chain `submitPayload` transactions issued, and whether background
confirmation monitoring was started or resumed. -/
structure SubmitOutcome where
  result : Except SubmitError String
  saves : List Payload
  calls : Nat
  monitor : Bool
deriving Repr

/-- Retry loop of `SubmitterService.submitPayload` (`for attempt = 1;
attempt <= maxRetries + 1`).  Each iteration issues one chain call: on
success the record is saved as SUBMITTED with the hash, timestamp, attempt
count, and cleared error, and monitoring starts; on a thrown error the
in-memory record's attempt count and error message are updated, and the loop
either terminalizes (saving FAILED and rethrowing) when this was the last
allowed attempt or the error classifies PERMANENT, or sleeps for the backoff
delay and retries.  The recursion is on `rem`, the number of remaining
allowed attempts (`attempt + rem` is invariant); `rem = 0` is the
fall-through `throw lastError` after the loop, unreachable from the entry
point. -/
def submitLoop (maxRetries : Nat) (chain : Nat → Except String String) (nowMs : Int) :
    Nat → Nat → Payload → Option String → SubmitOutcome
  | 0, _attempt, _payload, lastError =>
    ⟨Except.error (SubmitError.chainError (lastError.getD (""))), [], 0, false⟩
  | rem + 1, attempt, payload, _lastError =>
    match chain attempt with
    | Except.ok txHash =>
      let payload' :=
        { payload with
          transactionHash := some txHash
          status := PayloadStatus.SUBMITTED
          submittedAt := some nowMs
          submissionAttempts := attempt
          errorMessage := none }
      ⟨Except.ok txHash, [payload'], 1, true⟩
    | Except.error msg =>
      let payload' :=
        { payload with submissionAttempts := attempt, errorMessage := some msg }
      if attempt > maxRetries ∨ categorizeFailure msg = FailureType.PERMANENT then
        ⟨Except.error (SubmitError.chainError msg),
          [{ payload' with status := PayloadStatus.FAILED }], 1, false⟩
      else
        let r := submitLoop maxRetries chain nowMs rem (attempt + 1) payload' (some msg)
        ⟨r.result, r.saves, r.calls + 1, r.monitor⟩

/-- Method `SubmitterService.submitPayload(payloadId)`: loads the record
(not-found raises); a CONFIRMED record with a truthy hash returns the cached
hash with no chain call; a SUBMITTED record with a truthy hash returns the
cached hash and resumes monitoring; a non-PENDING status raises; a falsy
signature raises; an expired record is saved FAILED with the expiry error and
raises; otherwise the retry loop runs with `maxRetries + 1` allowed
attempts. -/
def submitPayload (cfg : SubmitterConfig) (chain : Nat → Except String String)
    (nowMs : Int) (store : List Payload) (payloadId : String) : SubmitOutcome :=
  match store.find? (fun p => p.id == payloadId) with
  | none => ⟨Except.error SubmitError.notFound, [], 0, false⟩
  | some payload =>
    if payload.status = PayloadStatus.CONFIRMED ∧ truthy payload.transactionHash then
      ⟨Except.ok (payload.transactionHash.getD ("")), [], 0, false⟩
    else if payload.status = PayloadStatus.SUBMITTED ∧ truthy payload.transactionHash then
      ⟨Except.ok (payload.transactionHash.getD ("")), [], 0, true⟩
    else if payload.status ≠ PayloadStatus.PENDING then
      ⟨Except.error SubmitError.notPending, [], 0, false⟩
    else if truthy payload.signature = false then
      ⟨Except.error SubmitError.notSigned, [], 0, false⟩
    else if payload.expiresAt < nowMs then
      ⟨Except.error SubmitError.expired,
        [{ payload with
            status := PayloadStatus.FAILED
            errorMessage := some ("Payload expired before submission") }],
        0, false⟩
    else
      submitLoop cfg.maxRetries chain nowMs (cfg.maxRetries + 1) 1 payload none

/-- Method `SubmitterService.retrySubmission(payloadId)`: loads the record
(not-found raises); raises when `submissionAttempts` has reached
`maxRetries`; otherwise saves the record back to PENDING with the error
message cleared and re-enters `submitPayload` on the updated store.  The
reset save is prepended to the saves of the inner call. -/
def retrySubmission (cfg : SubmitterConfig) (chain : Nat → Except String String)
    (nowMs : Int) (store : List Payload) (payloadId : String) : SubmitOutcome :=
  match store.find? (fun p => p.id == payloadId) with
  | none => ⟨Except.error SubmitError.notFound, [], 0, false⟩
  | some payload =>
    if payload.submissionAttempts ≥ cfg.maxRetries then
      ⟨Except.error SubmitError.exceededMaxRetries, [], 0, false⟩
    else
      let payload' :=
        { payload with status := PayloadStatus.PENDING, errorMessage := none }
      let store' := saveRecord store payload'
      let o := submitPayload cfg chain nowMs store' payloadId
      ⟨o.result, payload' :: o.saves, o.calls, o.monitor⟩

/-- Concrete signed, unexpired, PENDING payload used by witnesses and
counterexamples below. -/
def basePayload : Payload :=
  { id := "p1"
    payloadType := "oracle_update"
    payloadHash := "0xhash"
    nonce := "1"
    signature := some ("0xsig")
    expiresAt := 1000
    status := PayloadStatus.PENDING
    transactionHash := none
    submissionAttempts := 0
    errorMessage := none
    createdAt := 0
    updatedAt := 0
    submittedAt := none }

/-- A payload already SUBMITTED with a recorded transaction hash. -/
def exampleSubmitted : Payload :=
  { basePayload with
    status := PayloadStatus.SUBMITTED
    transactionHash := some ("0xaaa")
    submissionAttempts := 1
    submittedAt := some 0 }

/-- A CONFIRMED payload with a recorded transaction hash and no attempts
consumed. -/
def exampleConfirmed : Payload :=
  { basePayload with
    status := PayloadStatus.CONFIRMED
    transactionHash := some ("0xaaa") }

/-- A FAILED payload whose stored attempt counter is 3. -/
def exampleFailedThrice : Payload :=
  { basePayload with
    status := PayloadStatus.FAILED
    submissionAttempts := 3
    errorMessage := some ("timeout") }

/-- An expired PENDING payload. -/
def exampleExpired : Payload :=
  { basePayload with expiresAt := -5 }

/-- PENDING payloads with distinct ids, for batch-order scenarios. -/
def examplePayloadA : Payload :=
  { basePayload with id := "a" }

/-- Second distinct-id PENDING payload. -/
def examplePayloadB : Payload :=
  { basePayload with id := "b" }

/-- A chain client that accepts every transaction with hash `0xbbb`. -/
def exChainOk : Nat → Except String String := fun _ => Except.ok ("0xbbb")

/-- A chain client that rejects every transaction with an
"invalid signature" error. -/
def exChainInvalidSig : Nat → Except String String :=
  fun _ => Except.error ("invalid signature")

/-- A batch-service submit placeholder outcome that always succeeds. -/
def exSubmitOk : Payload → Except String String := fun _ => Except.ok ("0x1")

/-- A `processWithRetry` outcome that reports success for every payload. -/
def exRunOk : Payload → SubmissionResult :=
  fun p => ⟨p.id, true, some ("0x1"), none, none, 1⟩

/-- An unexpired PENDING payload with an empty signature, as selected by the
batching query. -/
def exampleUnsigned : Payload :=
  { basePayload with id := "u", signature := some ("") }

/-- An expired PENDING payload with a NULL signature, as selected by the
batching query. -/
def exampleExpiredUnsigned : Payload :=
  { basePayload with id := "v", signature := none, expiresAt := -5 }

/-- C5: `categorizeFailure` lower-cases the message and tests the permanent
substrings before the retryable ones: a message containing any permanent
substring classifies PERMANENT (even when a retryable substring also occurs,
since the retryable list is only consulted after the permanent scan fails),
and a message matching no substring of either list classifies RETRYABLE. -/
theorem C5_categorizeFailure_permanent_first (message : String) :
    (categorizeFailure message = FailureType.PERMANENT ↔
      permanentPatterns.any
        (fun pat => jsIncludes (jsToLowerCase message) pat) = true) ∧
    (permanentPatterns.any
        (fun pat => jsIncludes (jsToLowerCase message) pat) = false →
      retryablePatterns.any
        (fun pat => jsIncludes (jsToLowerCase message) pat) = false →
      categorizeFailure message = FailureType.RETRYABLE) := by
  constructor
  · unfold categorizeFailure
    by_cases hperm :
        permanentPatterns.any
          (fun pat => jsIncludes (jsToLowerCase message) pat) = true
    · simp [hperm]
    · by_cases hret :
          retryablePatterns.any
            (fun pat => jsIncludes (jsToLowerCase message) pat) = true <;>
        simp [hperm, hret]
  · intro hperm hret
    unfold categorizeFailure
    simp [hperm, hret]

/-- Witness for C5: a message containing both a permanent substring
("expired") and a retryable substring ("timeout") classifies PERMANENT, and a
message containing neither classifies RETRYABLE. -/
theorem C5_categorizeFailure_permanent_first_witness :
    categorizeFailure ("timeout while expired") = FailureType.PERMANENT ∧
    categorizeFailure ("mysterious glitch") = FailureType.RETRYABLE := by
  refine ⟨?_, ?_⟩
  · exact (C5_categorizeFailure_permanent_first ("timeout while expired")).1.mpr
      (by decide)
  · exact (C5_categorizeFailure_permanent_first ("mysterious glitch")).2
      (by decide) (by decide)

/-- C6: for every attempt `a`, `calculateRetryDelay(a)` equals
`min(initialDelay * multiplier ^ (a - 1), maxDelay)`; the delay never exceeds
`maxDelay`; for nonnegative initial delay and multiplier at least 1 the delay
is nondecreasing in the attempt number; and `SubmitterService` computes the
same formula as `SubmissionBatchService` on equal configuration values. -/
theorem C6_calculateRetryDelay_cap_monotone (i M m : ℚ) (a : Nat) :
    Submitter.calculateRetryDelay ⟨i, M, m⟩ a =
      SubmissionBatch.calculateRetryDelay ⟨i, M, m⟩ a ∧
    SubmissionBatch.calculateRetryDelay ⟨i, M, m⟩ a =
      min (i * m ^ (a - 1)) M ∧
    SubmissionBatch.calculateRetryDelay ⟨i, M, m⟩ a ≤ M ∧
    (0 ≤ i → 1 ≤ m →
      SubmissionBatch.calculateRetryDelay ⟨i, M, m⟩ a ≤
        SubmissionBatch.calculateRetryDelay ⟨i, M, m⟩ (a + 1)) := by
  refine ⟨rfl, rfl, min_le_right _ _, ?_⟩
  intro hi hm
  unfold SubmissionBatch.calculateRetryDelay
  refine min_le_min ?_ le_rfl
  exact mul_le_mul_of_nonneg_left
    (pow_le_pow_right₀ hm (by omega)) hi

/-- Witness for C6 at the service defaults (initial delay 1000 ms, cap
60000 ms, multiplier 2): the delay for attempt 3 is 4000 ms, at most the cap,
and at most the 8000 ms delay of attempt 4. -/
theorem C6_calculateRetryDelay_cap_monotone_witness :
    SubmissionBatch.calculateRetryDelay ⟨1000, 60000, 2⟩ 3 ≤ 60000 ∧
    SubmissionBatch.calculateRetryDelay ⟨1000, 60000, 2⟩ 3 ≤
      SubmissionBatch.calculateRetryDelay ⟨1000, 60000, 2⟩ 4 := by
  refine ⟨(C6_calculateRetryDelay_cap_monotone 1000 60000 2 3).2.2.1, ?_⟩
  exact (C6_calculateRetryDelay_cap_monotone 1000 60000 2 3).2.2.2
    (by norm_num) (by norm_num)

/-- Helper: the success and failure partitions of a result list cover it. -/
theorem length_filter_success_add (l : List SubmissionResult) :
    (l.filter (fun r => r.success)).length +
      (l.filter (fun r => !r.success)).length = l.length := by
  induction l with
  | nil => rfl
  | cons a t ih =>
    by_cases h : a.success <;> simp [List.filter_cons, h] <;> omega

/-- Helper: `jsOr` of a positive default is positive. -/
theorem jsOr_pos (x : Option Nat) (d : Nat) (hd : 0 < d) : 0 < jsOr x d := by
  cases x with
  | none => simpa [jsOr]
  | some n => by_cases h : n = 0 <;> simp [jsOr, h] <;> omega

/-- Helper: with a positive chunk size and enough fuel, chunked dispatch is
exactly a map over the list. -/
theorem runChunks_eq_map (run : Payload → SubmissionResult) (mc : Nat)
    (hmc : 0 < mc) :
    ∀ fuel l, l.length ≤ fuel → runChunks run mc fuel l = l.map run := by
  intro fuel
  induction fuel with
  | zero =>
    intro l hl
    have : l = [] := List.eq_nil_of_length_eq_zero (Nat.le_zero.mp hl)
    subst this
    rfl
  | succ n ih =>
    intro l hl
    cases l with
    | nil => rfl
    | cons p rest =>
      rw [runChunks, ih ((p :: rest).drop mc) (by simp [List.length_drop] at hl ⊢; omega),
        ← List.map_append, List.take_append_drop]

/-- Helper: `processSequentially` produces one result per payload, carrying
that payload's id, in traversal order. -/
theorem processSequentially_ids (submit : Payload → Except String String)
    (l : List Payload) :
    (processSequentially submit l).map (fun r => r.payloadId) =
      l.map (fun p => p.id) := by
  unfold processSequentially
  rw [List.map_map]
  apply List.map_congr_left
  intro p _
  cases hsp : submit p <;> simp [Function.comp, hsp]

/-- Helper: count fields of `processBatch` are definitionally tied to its
results list. -/
theorem processBatch_counts (cfg : BatchServiceConfig)
    (submit : Payload → Except String String) (inFlight : List String)
    (nowMs : Int) (store : List Payload) (payloadIds : List String)
    (batchId : String) :
    (processBatch cfg submit inFlight nowMs store payloadIds batchId).results.length =
      (processBatch cfg submit inFlight nowMs store payloadIds batchId).totalPayloads ∧
    (processBatch cfg submit inFlight nowMs store payloadIds batchId).successfulPayloads =
      ((processBatch cfg submit inFlight nowMs store payloadIds batchId).results.filter
        (fun r => r.success)).length ∧
    (processBatch cfg submit inFlight nowMs store payloadIds batchId).failedPayloads =
      ((processBatch cfg submit inFlight nowMs store payloadIds batchId).results.filter
        (fun r => !r.success)).length := by
  simp only [processBatch]
  repeat' split
  all_goals first
    | exact ⟨rfl, rfl, rfl⟩
    | exact ⟨by simp [processSequentially, processConcurrently], rfl, rfl⟩

/-- Helper: count fields of `retryFailedPayloads` are tied to its results
list. -/
theorem retryFailedPayloads_counts (cfg : BatchServiceConfig)
    (run : Payload → SubmissionResult) (nowMs : Int) (store : List Payload)
    (optIds : Option (List String)) (maxConcurrent : Option Nat)
    (batchId : String) :
    (retryFailedPayloads cfg run nowMs store optIds maxConcurrent batchId).results.length =
      (retryFailedPayloads cfg run nowMs store optIds maxConcurrent batchId).totalPayloads ∧
    (retryFailedPayloads cfg run nowMs store optIds maxConcurrent batchId).successfulPayloads =
      ((retryFailedPayloads cfg run nowMs store optIds maxConcurrent batchId).results.filter
        (fun r => r.success)).length ∧
    (retryFailedPayloads cfg run nowMs store optIds maxConcurrent batchId).failedPayloads =
      ((retryFailedPayloads cfg run nowMs store optIds maxConcurrent batchId).results.filter
        (fun r => !r.success)).length := by
  simp only [retryFailedPayloads]
  repeat' split
  all_goals first
    | exact ⟨rfl, rfl, rfl⟩
    | (refine ⟨?_, rfl, rfl⟩
       rw [runChunks_eq_map run (jsOr maxConcurrent 5)
         (jsOr_pos maxConcurrent 5 (by omega)) _ _ le_rfl]
       simp)

/-- C10: every `BatchSubmissionResult` built by `processBatch` or
`retryFailedPayloads` has one result entry per counted payload
(`results.length = totalPayloads`), counts successes as exactly the entries
with `success = true`, and splits the total as
`successfulPayloads + failedPayloads = totalPayloads`; when no payloads
validate, or no retryable FAILED payloads exist, the totals are zero and the
results list is empty. -/
theorem C10_batch_result_count_invariants (cfg : BatchServiceConfig)
    (submit : Payload → Except String String) (run : Payload → SubmissionResult)
    (inFlight : List String) (nowMs : Int) (store : List Payload)
    (payloadIds : List String) (optIds : Option (List String))
    (maxConcurrent : Option Nat) (batchId batchId2 : String) :
    (processBatch cfg submit inFlight nowMs store payloadIds batchId).results.length =
      (processBatch cfg submit inFlight nowMs store payloadIds batchId).totalPayloads ∧
    (processBatch cfg submit inFlight nowMs store payloadIds batchId).successfulPayloads +
        (processBatch cfg submit inFlight nowMs store payloadIds batchId).failedPayloads =
      (processBatch cfg submit inFlight nowMs store payloadIds batchId).totalPayloads ∧
    (processBatch cfg submit inFlight nowMs store payloadIds batchId).successfulPayloads =
      ((processBatch cfg submit inFlight nowMs store payloadIds batchId).results.filter
        (fun r => r.success)).length ∧
    (retryFailedPayloads cfg run nowMs store optIds maxConcurrent batchId2).results.length =
      (retryFailedPayloads cfg run nowMs store optIds maxConcurrent batchId2).totalPayloads ∧
    (retryFailedPayloads cfg run nowMs store optIds maxConcurrent batchId2).successfulPayloads +
        (retryFailedPayloads cfg run nowMs store optIds maxConcurrent batchId2).failedPayloads =
      (retryFailedPayloads cfg run nowMs store optIds maxConcurrent batchId2).totalPayloads ∧
    (retryFailedPayloads cfg run nowMs store optIds maxConcurrent batchId2).successfulPayloads =
      ((retryFailedPayloads cfg run nowMs store optIds maxConcurrent batchId2).results.filter
        (fun r => r.success)).length ∧
    ((validatePayloadsForBatch nowMs
        (if payloadIds.isEmpty then []
         else store.filter (fun p => payloadIds.contains p.id)) inFlight).valid = [] →
      (processBatch cfg submit inFlight nowMs store payloadIds batchId).totalPayloads = 0 ∧
      (processBatch cfg submit inFlight nowMs store payloadIds batchId).results = []) ∧
    (optIds = none → getRetryablePayloads cfg nowMs store none = [] →
      (retryFailedPayloads cfg run nowMs store optIds maxConcurrent batchId2).totalPayloads = 0 ∧
      (retryFailedPayloads cfg run nowMs store optIds maxConcurrent batchId2).results = []) := by
  obtain ⟨h1, h2, h3⟩ :=
    processBatch_counts cfg submit inFlight nowMs store payloadIds batchId
  obtain ⟨g1, g2, g3⟩ :=
    retryFailedPayloads_counts cfg run nowMs store optIds maxConcurrent batchId2
  refine ⟨h1, ?_, h2, g1, ?_, g2, ?_, ?_⟩
  · rw [h2, h3, length_filter_success_add, h1]
  · rw [g2, g3, length_filter_success_add, g1]
  · intro h
    simp only [processBatch, h]
    exact ⟨rfl, rfl⟩
  · intro ho h
    subst ho
    simp only [retryFailedPayloads, h]
    exact ⟨rfl, rfl⟩

/-- Witness for C10: on an empty store, a batch over one unknown id and a
parameterless retry pass both return empty, zero-count results. -/
theorem C10_batch_result_count_invariants_witness :
    (processBatch ⟨10, 5, true⟩ exSubmitOk [] 0 [] [("x")] ("b1")).totalPayloads = 0 ∧
    (processBatch ⟨10, 5, true⟩ exSubmitOk [] 0 [] [("x")] ("b1")).results = [] ∧
    (retryFailedPayloads ⟨10, 5, true⟩ exRunOk 0 [] none none ("b2")).totalPayloads = 0 ∧
    (retryFailedPayloads ⟨10, 5, true⟩ exRunOk 0 [] none none ("b2")).results = [] := by
  have h := C10_batch_result_count_invariants ⟨10, 5, true⟩ exSubmitOk exRunOk
    [] 0 [] [("x")] none none ("b1") ("b2")
  have hc := h.2.2.2.2.2.2.1 (by rfl)
  have hd := h.2.2.2.2.2.2.2 rfl (by rfl)
  exact ⟨hc.1, hc.2, hd.1, hd.2⟩

/-- C9 counterexample: with `preserveOrder = true`, the repository fetch for
`processBatch` returns rows in store order, not in input-id order; for the
store `[b, a]` and the input id list `["a", "b"]` the result entries come
back in the order `["b", "a"]`, which differs from the relative order of the
corresponding ids in the input list. -/
theorem C9_counterexample_input_order :
    (processBatch ⟨10, 5, true⟩ exSubmitOk [] 0 [examplePayloadB, examplePayloadA]
        [("a"), ("b")] ("batch")).results.map (fun r => r.payloadId) =
      [("b"), ("a")] ∧
    ([("b"), ("a")] : List String) ≠ [("a"), ("b")] := by
  exact ⟨rfl, by decide⟩

/-- C9 (amended): with `preserveOrder = true`, `processBatch` returns exactly
one result entry per validated payload, ordered as the validated payload
list — that is, the order in which the repository returned the fetched
records — rather than the order of the ids in the input list. -/
theorem C9_processBatch_order_follows_fetch (cfg : BatchServiceConfig)
    (submit : Payload → Except String String) (inFlight : List String)
    (nowMs : Int) (store : List Payload) (payloadIds : List String)
    (batchId : String) (hpo : cfg.preserveOrder = true) :
    (processBatch cfg submit inFlight nowMs store payloadIds batchId).results.map
        (fun r => r.payloadId) =
      (validatePayloadsForBatch nowMs
        (if payloadIds.isEmpty then []
         else store.filter (fun p => payloadIds.contains p.id)) inFlight).valid.map
        (fun p => p.id) := by
  simp only [processBatch, hpo, if_true]
  repeat' split
  all_goals first
    | exact processSequentially_ids _ _
    | (rename_i h
       rw [List.isEmpty_iff] at h
       rw [h]
       rfl)

/-- Witness for C9 (amended): concrete two-payload batch in store order. -/
theorem C9_processBatch_order_follows_fetch_witness :
    (processBatch ⟨10, 5, true⟩ exSubmitOk [] 0 [examplePayloadB, examplePayloadA]
        [("a"), ("b")] ("batch")).results.map (fun r => r.payloadId) =
      (validatePayloadsForBatch 0
        (if ([("a"), ("b")] : List String).isEmpty then []
         else ([examplePayloadB, examplePayloadA]).filter
           (fun p => ([("a"), ("b")] : List String).contains p.id)) []).valid.map
        (fun p => p.id) :=
  C9_processBatch_order_follows_fetch ⟨10, 5, true⟩ exSubmitOk [] 0
    [examplePayloadB, examplePayloadA] [("a"), ("b")] ("batch") rfl

/-- Helper: replacing a found record in the store relocates the lookup to the
replacement. -/
theorem find?_saveRecord (store : List Payload) (payloadId : String)
    (p q : Payload) (hq : q.id = p.id) :
    store.find? (fun r => r.id == payloadId) = some p →
    (saveRecord store q).find? (fun r => r.id == payloadId) = some q := by
  induction store with
  | nil => intro h; simp at h
  | cons a rest ih =>
    intro h
    by_cases ha : a.id = payloadId
    · have hpa : (fun r : Payload => r.id == payloadId) a = true := by simp [ha]
      have hap : a = p := by
        have h' := (List.find?_cons_of_pos rest hpa).symm.trans h
        simpa using h'
      have hqa : q.id = a.id := by rw [hq, ← hap]
      simp only [saveRecord, List.map_cons]
      rw [if_pos (by simp [hqa])]
      exact List.find?_cons_of_pos _ (by simp [hqa, ha])
    · have hpa : ¬((fun r : Payload => r.id == payloadId) a = true) := by simp [ha]
      have h' : rest.find? (fun r => r.id == payloadId) = some p :=
        (List.find?_cons_of_neg rest hpa).symm.trans h
      have hpid : p.id = payloadId := by
        have := List.find?_some h'
        simpa using this
      have hbeq : ¬(a.id = q.id) := by
        rw [hq, hpid]
        exact ha
      have hfa : (a.id == payloadId) = false := by simp [ha]
      show List.find? (fun r : Payload => r.id == payloadId)
          ((if (a.id == q.id) = true then q else a) :: saveRecord rest q) = some q
      rw [if_neg (by simpa using hbeq)]
      simp only [List.find?, hfa]
      exact ih h'

/-- Helper: every payload accepted by `validatePayloadsForBatch` has a truthy
signature. -/
theorem validate_valid_truthy_signature (nowMs : Int) :
    ∀ (l : List Payload) (inFlight : List String) (q : Payload),
      q ∈ (validatePayloadsForBatch nowMs l inFlight).valid →
      truthy q.signature = true := by
  intro l
  induction l with
  | nil =>
    intro inFlight q hq
    simp [validatePayloadsForBatch] at hq
  | cons payload rest ih =>
    intro inFlight q hq
    simp only [validatePayloadsForBatch] at hq
    split_ifs at hq with h1 h2 h3 h4
    · exact ih _ q hq
    · exact ih _ q hq
    · exact ih _ q hq
    · exact ih _ q hq
    · dsimp only at hq
      rcases List.mem_cons.mp hq with hq | hq
      · subst hq
        simpa using h3
      · exact ih _ q hq

/-- Helper: an unexpired, non-terminal record with a falsy signature is
reported to `markAsFailed` with the no-signature error by
`validatePayloadsForBatch`. -/
theorem validate_marks_nosignature (nowMs : Int) :
    ∀ (l : List Payload) (inFlight : List String) (p : Payload),
      p ∈ l → ¬(p.expiresAt < nowMs) →
      p.status ≠ PayloadStatus.CONFIRMED → p.status ≠ PayloadStatus.SUBMITTED →
      truthy p.signature = false →
      (p.id, ("Payload has no signature")) ∈
        (validatePayloadsForBatch nowMs l inFlight).failedMarks := by
  intro l
  induction l with
  | nil =>
    intro inFlight p hp
    simp at hp
  | cons payload rest ih =>
    intro inFlight p hp hexp hc hs hsig
    simp only [validatePayloadsForBatch]
    rcases List.mem_cons.mp hp with hp | hp
    · subst hp
      rw [if_neg hexp, if_neg (not_or.mpr ⟨hc, hs⟩), if_pos hsig]
      dsimp only
      exact List.mem_cons_self _ _
    · split_ifs with h1 h2 h3 h4
      · exact List.mem_cons_of_mem _ (ih _ p hp hexp hc hs hsig)
      · exact ih _ p hp hexp hc hs hsig
      · exact List.mem_cons_of_mem _ (ih _ p hp hexp hc hs hsig)
      · exact ih _ p hp hexp hc hs hsig
      · exact ih _ p hp hexp hc hs hsig

/-- Helper: every payload selected by `getPayloadsForBatching` has a NULL or
empty signature (the repository where-clause is `signature IN (NULL, '')`). -/
theorem selected_signature_empty (bcfg : BatchServiceConfig)
    (inFlight : List String) (nowMs : Int) (store : List Payload)
    (limit : Option Nat) :
    ∀ p ∈ (getPayloadsForBatching bcfg inFlight nowMs store limit).selected,
      p.signature = none ∨ p.signature = some ("") := by
  intro p hp
  simp only [getPayloadsForBatching] at hp
  have h1 := List.take_subset _ _ hp
  have h2 := (List.mem_filter.mp h1).1
  have h3 := List.take_subset _ _ h2
  have h4 := (List.mem_filter.mp h3).2
  simp only [Bool.and_eq_true, Bool.or_eq_true, decide_eq_true_eq] at h4
  exact h4.2

/-- C3: the batch-selection and batch-validation filters are mutually
exclusive.  Every payload returned by `getPayloadsForBatching` has a NULL or
empty signature; `validatePayloadsForBatch` reports every unexpired,
non-terminal payload with a falsy signature to `markAsFailed` with the
"Payload has no signature" error (which persists it as FAILED) and excludes
it from the accepted list; consequently no payload selected by
`getPayloadsForBatching` is ever accepted into a batch by
`validatePayloadsForBatch`. -/
theorem C3_selection_validation_disjoint (bcfg : BatchServiceConfig)
    (inFlight inFlight2 : List String) (nowMs nowMs2 : Int)
    (store : List Payload) (limit : Option Nat) (payloads : List Payload) :
    (∀ p ∈ (getPayloadsForBatching bcfg inFlight nowMs store limit).selected,
      p.signature = none ∨ p.signature = some ("")) ∧
    (∀ p ∈ payloads, ¬(p.expiresAt < nowMs2) →
      p.status ≠ PayloadStatus.CONFIRMED → p.status ≠ PayloadStatus.SUBMITTED →
      truthy p.signature = false →
      p ∉ (validatePayloadsForBatch nowMs2 payloads inFlight2).valid ∧
      (p.id, ("Payload has no signature")) ∈
        (validatePayloadsForBatch nowMs2 payloads inFlight2).failedMarks) ∧
    (∀ p ∈ (getPayloadsForBatching bcfg inFlight nowMs store limit).selected,
      p ∉ (validatePayloadsForBatch nowMs2 payloads inFlight2).valid) ∧
    (∀ (st : List Payload) (pid msg : String) (ft : FailureType) (n : Nat)
        (pr : Payload), st.find? (fun r => r.id == pid) = some pr →
      (markAsFailed st pid msg ft n).find? (fun r => r.id == pid) =
        some { pr with
               status := PayloadStatus.FAILED
               errorMessage := some msg
               submissionAttempts := n }) := by
  refine ⟨selected_signature_empty bcfg inFlight nowMs store limit, ?_, ?_, ?_⟩
  · intro p hp hexp hc hs hsig
    refine ⟨?_, validate_marks_nosignature nowMs2 payloads inFlight2 p hp hexp hc hs hsig⟩
    intro hmem
    have hT := validate_valid_truthy_signature nowMs2 payloads inFlight2 p hmem
    rw [hsig] at hT
    exact Bool.false_ne_true hT
  · intro p hp hmem
    have hT := validate_valid_truthy_signature nowMs2 payloads inFlight2 p hmem
    rcases selected_signature_empty bcfg inFlight nowMs store limit p hp with h | h <;>
      simp [truthy, h] at hT
  · intro st pid msg ft n pr hfind
    unfold markAsFailed
    rw [hfind]
    exact find?_saveRecord st pid pr _ rfl hfind

/-- Witness for C3: the unexpired PENDING payload with empty signature is
rejected by batch validation with the no-signature error. -/
theorem C3_selection_validation_disjoint_witness :
    exampleUnsigned ∉ (validatePayloadsForBatch 0 [exampleUnsigned] []).valid ∧
    (exampleUnsigned.id, ("Payload has no signature")) ∈
      (validatePayloadsForBatch 0 [exampleUnsigned] []).failedMarks := by
  have h := C3_selection_validation_disjoint ⟨10, 5, true⟩ [] [] 0 0
    [exampleUnsigned] none [exampleUnsigned]
  exact h.2.1 exampleUnsigned (List.mem_cons_self _ _) (by decide) (by decide)
    (by decide) (by decide)

/-- Helper: the retry loop issues at most `rem` chain calls. -/
theorem submitLoop_calls_le (maxRetries : Nat) (chain : Nat → Except String String)
    (nowMs : Int) :
    ∀ (rem attempt : Nat) (payload : Payload) (lastError : Option String),
      (submitLoop maxRetries chain nowMs rem attempt payload lastError).calls ≤ rem := by
  intro rem
  induction rem with
  | zero =>
    intro attempt payload lastError
    simp [submitLoop]
  | succ r ih =>
    intro attempt payload lastError
    cases hc : chain attempt with
    | ok txHash => simp [submitLoop, hc]
    | error msg =>
      simp only [submitLoop, hc]
      split
      · simp
      · simpa using Nat.succ_le_succ (ih (attempt + 1) _ (some msg))

/-- Helper: every record saved by the retry loop is saved as SUBMITTED or
FAILED, never as PENDING. -/
theorem submitLoop_saves_status (maxRetries : Nat) (chain : Nat → Except String String)
    (nowMs : Int) :
    ∀ (rem attempt : Nat) (payload : Payload) (lastError : Option String)
      (q : Payload),
      q ∈ (submitLoop maxRetries chain nowMs rem attempt payload lastError).saves →
      q.status = PayloadStatus.SUBMITTED ∨ q.status = PayloadStatus.FAILED := by
  intro rem
  induction rem with
  | zero =>
    intro attempt payload lastError q hq
    simp [submitLoop] at hq
  | succ r ih =>
    intro attempt payload lastError q hq
    cases hc : chain attempt with
    | ok txHash =>
      simp only [submitLoop, hc] at hq
      rcases List.mem_singleton.mp hq with rfl
      exact Or.inl rfl
    | error msg =>
      simp only [submitLoop, hc] at hq
      split at hq
      · rcases List.mem_singleton.mp hq with rfl
        exact Or.inr rfl
      · exact ih (attempt + 1) _ (some msg) q hq

/-- Helper: every record saved by the retry loop carries as its persisted
attempt count the loop attempt index at which it was saved, namely the entry
attempt index plus the chain calls made before the save. -/
theorem submitLoop_saves_attempts (maxRetries : Nat) (chain : Nat → Except String String)
    (nowMs : Int) :
    ∀ (rem attempt : Nat) (payload : Payload) (lastError : Option String)
      (q : Payload),
      q ∈ (submitLoop maxRetries chain nowMs rem attempt payload lastError).saves →
      q.submissionAttempts + 1 =
        attempt + (submitLoop maxRetries chain nowMs rem attempt payload lastError).calls := by
  intro rem
  induction rem with
  | zero =>
    intro attempt payload lastError q hq
    simp [submitLoop] at hq
  | succ r ih =>
    intro attempt payload lastError q hq
    cases hc : chain attempt with
    | ok txHash =>
      simp only [submitLoop, hc] at hq ⊢
      rcases List.mem_singleton.mp hq with rfl
      simp
    | error msg =>
      simp only [submitLoop, hc] at hq ⊢
      by_cases hcond :
          attempt > maxRetries ∨ categorizeFailure msg = FailureType.PERMANENT
      · rw [if_pos hcond] at hq ⊢
        rcases List.mem_singleton.mp hq with rfl
        simp
      · rw [if_neg hcond] at hq ⊢
        have := ih (attempt + 1) _ (some msg) q hq
        dsimp only at this ⊢
        omega

/-- Helper: when every attempt from the loop entry up to `k - 1` throws a
retryable error and attempt `k` throws an error that classifies PERMANENT or
is the final allowed attempt, the loop stops at attempt `k` exactly: it
rethrows that error, has issued `k - attempt + 1` chain calls, persists the
record once as FAILED with the error message and attempt count `k`, and
starts no monitoring. -/
theorem submitLoop_fail_run (maxRetries : Nat) (chain : Nat → Except String String)
    (nowMs : Int) :
    ∀ (rem attempt : Nat) (payload : Payload) (lastError : Option String)
      (k : Nat) (msg : String),
      attempt + rem = maxRetries + 2 →
      attempt ≤ k → k ≤ maxRetries + 1 →
      (∀ i, attempt ≤ i → i < k →
        ∃ m, chain i = Except.error m ∧ categorizeFailure m = FailureType.RETRYABLE) →
      chain k = Except.error msg →
      (categorizeFailure msg = FailureType.PERMANENT ∨ k = maxRetries + 1) →
      (submitLoop maxRetries chain nowMs rem attempt payload lastError).result =
          Except.error (SubmitError.chainError msg) ∧
      (submitLoop maxRetries chain nowMs rem attempt payload lastError).calls + attempt =
          k + 1 ∧
      (submitLoop maxRetries chain nowMs rem attempt payload lastError).saves =
          [{ payload with
             status := PayloadStatus.FAILED
             submissionAttempts := k
             errorMessage := some msg }] ∧
      (submitLoop maxRetries chain nowMs rem attempt payload lastError).monitor = false := by
  intro rem
  induction rem with
  | zero =>
    intro attempt payload lastError k msg hinv hak hk hpre hck hstop
    omega
  | succ r ih =>
    intro attempt payload lastError k msg hinv hak hk hpre hck hstop
    by_cases heq : attempt = k
    · subst heq
      simp only [submitLoop, hck]
      have hcond :
          attempt > maxRetries ∨ categorizeFailure msg = FailureType.PERMANENT := by
        rcases hstop with h | h
        · exact Or.inr h
        · exact Or.inl (by omega)
      rw [if_pos hcond]
      refine ⟨rfl, ?_, rfl, rfl⟩
      show 1 + attempt = attempt + 1
      omega
    · have hlt : attempt < k := lt_of_le_of_ne hak heq
      obtain ⟨m, hcm, hmr⟩ := hpre attempt le_rfl hlt
      simp only [submitLoop, hcm]
      have hcond :
          ¬(attempt > maxRetries ∨ categorizeFailure m = FailureType.PERMANENT) := by
        push_neg
        refine ⟨by omega, ?_⟩
        rw [hmr]
        simp
      rw [if_neg hcond]
      have hI := ih (attempt + 1)
        { payload with submissionAttempts := attempt, errorMessage := some m }
        (some m) k msg (by omega) (by omega) hk
        (fun i h1 h2 => hpre i (by omega) h2) hck hstop
      refine ⟨hI.1, ?_, ?_, hI.2.2.2⟩
      · have h2 := hI.2.1
        dsimp only at h2 ⊢
        omega
      · dsimp only
        rw [hI.2.2.1]

/-- Helper: a found, PENDING, signed, unexpired payload passes all the
preliminary validations of `SubmitterService.submitPayload` and enters the
retry loop at attempt 1 with `maxRetries + 1` allowed attempts. -/
theorem submitPayload_pending_eq_loop (cfg : SubmitterConfig)
    (chain : Nat → Except String String) (nowMs : Int) (store : List Payload)
    (payloadId : String) (payload : Payload)
    (hfind : store.find? (fun p => p.id == payloadId) = some payload)
    (hstatus : payload.status = PayloadStatus.PENDING)
    (hsig : truthy payload.signature = true)
    (hexp : ¬(payload.expiresAt < nowMs)) :
    submitPayload cfg chain nowMs store payloadId =
      submitLoop cfg.maxRetries chain nowMs (cfg.maxRetries + 1) 1 payload none := by
  simp only [submitPayload, hfind]
  rw [if_neg (by simp [hstatus]), if_neg (by simp [hstatus]),
    if_neg (by simp [hstatus]), if_neg (by simp [hsig]), if_neg hexp]

/-- C4: once `SubmitterService.submitPayload` passes its preliminary
validations, it performs at most `maxRetries + 1` chain submission attempts;
when the attempts before `k` all throw retryable errors and attempt `k`
throws an error that classifies PERMANENT — or `k` is the final allowed
attempt — exactly `k` chain calls are made, the payload is persisted once as
FAILED with that error message and attempt count `k`, and the error is
rethrown to the caller with no monitoring started; in particular a
first-attempt permanent error such as "invalid signature" results in exactly
one attempt. -/
theorem C4_retry_bound_permanent_stops (cfg : SubmitterConfig)
    (chain : Nat → Except String String) (nowMs : Int) (store : List Payload)
    (payloadId : String) (payload : Payload)
    (hfind : store.find? (fun p => p.id == payloadId) = some payload)
    (hstatus : payload.status = PayloadStatus.PENDING)
    (hsig : truthy payload.signature = true)
    (hexp : ¬(payload.expiresAt < nowMs)) :
    (submitPayload cfg chain nowMs store payloadId).calls ≤ cfg.maxRetries + 1 ∧
    (∀ (k : Nat) (msg : String), 1 ≤ k → k ≤ cfg.maxRetries + 1 →
      (∀ i, 1 ≤ i → i < k →
        ∃ m, chain i = Except.error m ∧ categorizeFailure m = FailureType.RETRYABLE) →
      chain k = Except.error msg →
      (categorizeFailure msg = FailureType.PERMANENT ∨ k = cfg.maxRetries + 1) →
      (submitPayload cfg chain nowMs store payloadId).calls = k ∧
      (submitPayload cfg chain nowMs store payloadId).result =
        Except.error (SubmitError.chainError msg) ∧
      (submitPayload cfg chain nowMs store payloadId).saves =
        [{ payload with
           status := PayloadStatus.FAILED
           submissionAttempts := k
           errorMessage := some msg }] ∧
      (submitPayload cfg chain nowMs store payloadId).monitor = false) := by
  rw [submitPayload_pending_eq_loop cfg chain nowMs store payloadId payload
    hfind hstatus hsig hexp]
  constructor
  · exact submitLoop_calls_le _ _ _ _ _ _ _
  · intro k msg hk1 hk2 hpre hck hstop
    have h := submitLoop_fail_run cfg.maxRetries chain nowMs (cfg.maxRetries + 1) 1
      payload none k msg (by omega) hk1 hk2 hpre hck hstop
    have hc := h.2.1
    exact ⟨by omega, h.1, h.2.2.1, h.2.2.2⟩

/-- Witness for C4: with maxRetries 5 and a chain client that throws
"invalid signature" on every attempt, submission of the PENDING signed
payload makes exactly one chain call and persists it FAILED with attempt
count 1. -/
theorem C4_retry_bound_permanent_stops_witness :
    (submitPayload ⟨5⟩ exChainInvalidSig 0 [basePayload] ("p1")).calls = 1 ∧
    (submitPayload ⟨5⟩ exChainInvalidSig 0 [basePayload] ("p1")).saves =
      [{ basePayload with
         status := PayloadStatus.FAILED
         submissionAttempts := 1
         errorMessage := some ("invalid signature") }] := by
  have h := C4_retry_bound_permanent_stops ⟨5⟩ exChainInvalidSig 0 [basePayload]
    ("p1") basePayload (by rfl) rfl (by decide) (by decide)
  have h2 := h.2 1 ("invalid signature") (by omega) (by omega)
    (fun i h1 hi => absurd (Nat.lt_of_lt_of_le hi h1) (Nat.lt_irrefl i))
    rfl (Or.inl (by decide))
  exact ⟨h2.1, h2.2.2.1⟩

/-- C1: a payload whose `expiresAt` has passed is never submitted: the
executor issues zero chain calls for it and every record it saves has status
FAILED (never SUBMITTED), and when the payload would otherwise be processed
(PENDING with a truthy signature) it is persisted as FAILED with the
"Payload expired before submission" error and the call raises the expiry
error; batch selection never selects an expired payload and reports every
expired fetched candidate to `markAsFailed` with the "Payload expired before
batch submission" error, and `markAsFailed` persists the named record with
status FAILED and that error message. -/
theorem C1_expired_never_submitted (cfg : SubmitterConfig)
    (chain : Nat → Except String String) (nowMs : Int) (store : List Payload)
    (payloadId : String) (payload : Payload) (bcfg : BatchServiceConfig)
    (inFlight : List String) (limit : Option Nat)
    (hfind : store.find? (fun p => p.id == payloadId) = some payload)
    (hexp : payload.expiresAt < nowMs) :
    (submitPayload cfg chain nowMs store payloadId).calls = 0 ∧
    (∀ q ∈ (submitPayload cfg chain nowMs store payloadId).saves,
      q.status = PayloadStatus.FAILED) ∧
    (payload.status = PayloadStatus.PENDING → truthy payload.signature = true →
      (submitPayload cfg chain nowMs store payloadId).result =
        Except.error SubmitError.expired ∧
      (submitPayload cfg chain nowMs store payloadId).saves =
        [{ payload with
           status := PayloadStatus.FAILED
           errorMessage := some ("Payload expired before submission") }]) ∧
    (∀ q ∈ (getPayloadsForBatching bcfg inFlight nowMs store limit).selected,
      ¬(q.expiresAt < nowMs)) ∧
    (∀ q ∈ (store.filter (fun p =>
        decide (p.status = PayloadStatus.PENDING) &&
          (decide (p.signature = none) || decide (p.signature = some (""))))).take
          (jsOr limit bcfg.batchSize * 2),
      q.expiresAt < nowMs →
      (q.id, ("Payload expired before batch submission")) ∈
        (getPayloadsForBatching bcfg inFlight nowMs store limit).failedMarks) ∧
    (∀ (st : List Payload) (pid msg : String) (ft : FailureType) (n : Nat)
        (pr : Payload), st.find? (fun r => r.id == pid) = some pr →
      (markAsFailed st pid msg ft n).find? (fun r => r.id == pid) =
        some { pr with
               status := PayloadStatus.FAILED
               errorMessage := some msg
               submissionAttempts := n }) := by
  have hb4 : ∀ q ∈ (getPayloadsForBatching bcfg inFlight nowMs store limit).selected,
      ¬(q.expiresAt < nowMs) := by
    intro q hq
    simp only [getPayloadsForBatching] at hq
    have h1 := List.take_subset _ _ hq
    have h2 := (List.mem_filter.mp h1).2
    simp only [Bool.and_eq_true, Bool.not_eq_true', decide_eq_false_iff_not] at h2
    exact h2.1
  have hb5 : ∀ q ∈ (store.filter (fun p =>
        decide (p.status = PayloadStatus.PENDING) &&
          (decide (p.signature = none) || decide (p.signature = some (""))))).take
          (jsOr limit bcfg.batchSize * 2),
      q.expiresAt < nowMs →
      (q.id, ("Payload expired before batch submission")) ∈
        (getPayloadsForBatching bcfg inFlight nowMs store limit).failedMarks := by
    intro q hq hqexp
    simp only [getPayloadsForBatching]
    exact List.mem_map.mpr
      ⟨q, List.mem_filter.mpr ⟨hq, by simp [hqexp]⟩, rfl⟩
  have hb6 : ∀ (st : List Payload) (pid msg : String) (ft : FailureType) (n : Nat)
      (pr : Payload), st.find? (fun r => r.id == pid) = some pr →
      (markAsFailed st pid msg ft n).find? (fun r => r.id == pid) =
        some { pr with
               status := PayloadStatus.FAILED
               errorMessage := some msg
               submissionAttempts := n } := by
    intro st pid msg ft n pr hf
    unfold markAsFailed
    rw [hf]
    exact find?_saveRecord st pid pr _ rfl hf
  simp only [submitPayload, hfind]
  split_ifs with h1 h2 h3 h4
  · refine ⟨rfl, by simp, ?_, hb4, hb5, hb6⟩
    intro hP _
    rw [hP] at h1
    exact absurd h1.1 (by decide)
  · refine ⟨rfl, by simp, ?_, hb4, hb5, hb6⟩
    intro hP _
    rw [hP] at h2
    exact absurd h2.1 (by decide)
  · refine ⟨rfl, by simp, ?_, hb4, hb5, hb6⟩
    intro hP _
    exact absurd hP h3
  · refine ⟨rfl, by simp, ?_, hb4, hb5, hb6⟩
    intro _ hsg
    exact absurd (hsg.symm.trans h4) (by decide)
  · refine ⟨rfl, ?_, fun _ _ => ⟨rfl, rfl⟩, hb4, hb5, hb6⟩
    intro q hq
    rcases List.mem_singleton.mp hq with rfl
    rfl

/-- Witness for C1: an expired, signed, PENDING payload yields zero chain
calls and the expiry error. -/
theorem C1_expired_never_submitted_witness :
    (submitPayload ⟨5⟩ exChainOk 0 [exampleExpired] ("p1")).calls = 0 ∧
    (submitPayload ⟨5⟩ exChainOk 0 [exampleExpired] ("p1")).result =
      Except.error SubmitError.expired := by
  have h := C1_expired_never_submitted ⟨5⟩ exChainOk 0 [exampleExpired] ("p1")
    exampleExpired ⟨10, 5, true⟩ [] none (by rfl) (by decide)
  exact ⟨h.1, (h.2.2.1 rfl (by decide)).1⟩

/-- C2 counterexample: a SUBMITTED payload with recorded transaction hash
"0xaaa" and one consumed attempt goes through `retrySubmission`, which resets
its status to PENDING without clearing the hash; the inner `submitPayload`
then issues a second chain transaction (one chain call, returning the new
hash "0xbbb"), so a non-null `transactionHash` does not prevent a second
chain transaction when an intervening `retrySubmission` precedes the call. -/
theorem C2_counterexample_retry_resubmits :
    exampleSubmitted.transactionHash = some ("0xaaa") ∧
    (retrySubmission ⟨5⟩ exChainOk 0 [exampleSubmitted] ("p1")).calls = 1 ∧
    (retrySubmission ⟨5⟩ exChainOk 0 [exampleSubmitted] ("p1")).result =
      Except.ok ("0xbbb") :=
  ⟨rfl, rfl, rfl⟩

/-- C2 (amended): as long as the stored status still reflects the earlier
submission at the time of the call, `submitPayload` is idempotent: for a
CONFIRMED payload with a truthy transaction hash it returns the cached hash
with no chain call, no saves and no monitoring, and for a SUBMITTED payload
with a truthy hash it returns the cached hash with no chain call and resumes
confirmation monitoring.  (An intervening `retrySubmission` resets the status
to PENDING without clearing the hash, after which a new chain transaction is
issued — see the counterexample.) -/
theorem C2_cached_hash_short_circuit (cfg : SubmitterConfig)
    (chain : Nat → Except String String) (nowMs : Int) (store : List Payload)
    (payloadId : String) (payload : Payload)
    (hfind : store.find? (fun p => p.id == payloadId) = some payload)
    (hhash : truthy payload.transactionHash = true) :
    (payload.status = PayloadStatus.CONFIRMED →
      submitPayload cfg chain nowMs store payloadId =
        ⟨Except.ok (payload.transactionHash.getD ("")), [], 0, false⟩) ∧
    (payload.status = PayloadStatus.SUBMITTED →
      submitPayload cfg chain nowMs store payloadId =
        ⟨Except.ok (payload.transactionHash.getD ("")), [], 0, true⟩) := by
  constructor
  · intro hS
    simp only [submitPayload, hfind]
    rw [if_pos ⟨hS, hhash⟩]
  · intro hS
    simp only [submitPayload, hfind]
    rw [if_neg ?hconf, if_pos ⟨hS, hhash⟩]
    case hconf =>
      intro hc
      rw [hS] at hc
      exact absurd hc.1 (by decide)

/-- Witness for C2 (amended): a CONFIRMED and a SUBMITTED payload, each with
cached hash "0xaaa", short-circuit without a chain call; monitoring resumes
only for the SUBMITTED one. -/
theorem C2_cached_hash_short_circuit_witness :
    submitPayload ⟨5⟩ exChainOk 0 [exampleConfirmed] ("p1") =
      ⟨Except.ok ("0xaaa"), [], 0, false⟩ ∧
    submitPayload ⟨5⟩ exChainOk 0 [exampleSubmitted] ("p1") =
      ⟨Except.ok ("0xaaa"), [], 0, true⟩ := by
  have h1 := C2_cached_hash_short_circuit ⟨5⟩ exChainOk 0 [exampleConfirmed]
    ("p1") exampleConfirmed (by rfl) (by decide)
  have h2 := C2_cached_hash_short_circuit ⟨5⟩ exChainOk 0 [exampleSubmitted]
    ("p1") exampleSubmitted (by rfl) (by decide)
  exact ⟨h1.1 rfl, h2.2 rfl⟩

/-- C7 counterexample: a stored record with `submissionAttempts = 3` is
rewritten by `markAsFailed` with its default attempt argument 1 (the value
every expiry-path call site passes), so the persisted counter decreases from
3 to 1. -/
theorem C7_counterexample_attempts_decrease :
    exampleFailedThrice.submissionAttempts = 3 ∧
    (markAsFailed [exampleFailedThrice] ("p1")
        ("Payload expired before batch submission") FailureType.PERMANENT 1).map
        (fun q => q.submissionAttempts) = [1] ∧
    (1 : Nat) < 3 :=
  ⟨rfl, rfl, by omega⟩

/-- C7 (amended): each write sets `submissionAttempts` to the writing
operation's own attempt counter rather than a running maximum: `markAsFailed`
persists exactly its `attemptNumber` argument (default 1) regardless of the
previously stored value, and every save inside the executor's retry loop
persists the current loop attempt index (the entry attempt plus the chain
calls made before the save); the stored value therefore decreases whenever
the new operation's counter is below the previously persisted one. -/
theorem C7_attempts_overwritten_by_operation (store : List Payload)
    (payloadId errorMessage : String) (ft : FailureType) (attemptNumber : Nat)
    (payload : Payload) (maxRetries : Nat) (chain : Nat → Except String String)
    (nowMs : Int) (rem attempt : Nat) (payload2 : Payload)
    (lastError : Option String)
    (hfind : store.find? (fun r => r.id == payloadId) = some payload) :
    ((markAsFailed store payloadId errorMessage ft attemptNumber).find?
        (fun r => r.id == payloadId) =
      some { payload with
             status := PayloadStatus.FAILED
             errorMessage := some errorMessage
             submissionAttempts := attemptNumber }) ∧
    (∀ q ∈ (submitLoop maxRetries chain nowMs rem attempt payload2 lastError).saves,
      q.submissionAttempts + 1 =
        attempt + (submitLoop maxRetries chain nowMs rem attempt payload2 lastError).calls) := by
  constructor
  · unfold markAsFailed
    rw [hfind]
    exact find?_saveRecord store payloadId payload _ rfl hfind
  · exact submitLoop_saves_attempts maxRetries chain nowMs rem attempt payload2 lastError

/-- Witness for C7 (amended): `markAsFailed` with attempt argument 2 persists
exactly 2 over the stored value 3. -/
theorem C7_attempts_overwritten_by_operation_witness :
    (markAsFailed [exampleFailedThrice] ("p1") ("x") FailureType.PERMANENT 2).find?
        (fun r => r.id == ("p1")) =
      some { exampleFailedThrice with
             status := PayloadStatus.FAILED
             errorMessage := some ("x")
             submissionAttempts := 2 } :=
  (C7_attempts_overwritten_by_operation [exampleFailedThrice] ("p1") ("x")
    FailureType.PERMANENT 2 exampleFailedThrice 5 exChainOk 0 1 1 basePayload
    none (by rfl)).1

/-- C8 counterexample: `retrySubmission` checks neither the FAILED status nor
the error classification: a CONFIRMED payload with no consumed attempts is
reset to PENDING (errorMessage cleared) and resubmitted, returning a fresh
hash instead of raising an error and leaving the record unchanged. -/
theorem C8_counterexample_retry_resets_confirmed :
    exampleConfirmed.status = PayloadStatus.CONFIRMED ∧
    (retrySubmission ⟨5⟩ exChainOk 0 [exampleConfirmed] ("p1")).saves.head? =
      some { exampleConfirmed with
             status := PayloadStatus.PENDING
             errorMessage := none } ∧
    (retrySubmission ⟨5⟩ exChainOk 0 [exampleConfirmed] ("p1")).result =
      Except.ok ("0xbbb") :=
  ⟨rfl, rfl, rfl⟩

/-- C8 (amended): `retrySubmission` resets a payload back to PENDING
(clearing its `errorMessage`) whenever the payload exists and its
`submissionAttempts` is strictly below `maxRetries`, regardless of its
current status and without classifying its last error; it raises an error
and performs no saves only when the payload is missing or its attempts have
reached `maxRetries`.  No other modelled code path writes status PENDING:
every save of `submitPayload` has a non-PENDING status, and `markAsFailed`
leaves records unchanged or sets them FAILED. -/
theorem C8_retry_reset_conditions (cfg : SubmitterConfig)
    (chain : Nat → Except String String) (nowMs : Int) (store : List Payload)
    (payloadId : String) :
    (store.find? (fun p => p.id == payloadId) = none →
      retrySubmission cfg chain nowMs store payloadId =
        ⟨Except.error SubmitError.notFound, [], 0, false⟩) ∧
    (∀ payload, store.find? (fun p => p.id == payloadId) = some payload →
      cfg.maxRetries ≤ payload.submissionAttempts →
      retrySubmission cfg chain nowMs store payloadId =
        ⟨Except.error SubmitError.exceededMaxRetries, [], 0, false⟩) ∧
    (∀ payload, store.find? (fun p => p.id == payloadId) = some payload →
      payload.submissionAttempts < cfg.maxRetries →
      (retrySubmission cfg chain nowMs store payloadId).saves.head? =
        some { payload with
               status := PayloadStatus.PENDING
               errorMessage := none }) ∧
    (∀ q ∈ (submitPayload cfg chain nowMs store payloadId).saves,
      q.status ≠ PayloadStatus.PENDING) ∧
    (∀ (st : List Payload) (pid msg : String) (ft : FailureType) (n : Nat)
        (q : Payload), q ∈ markAsFailed st pid msg ft n →
      q ∈ st ∨ q.status = PayloadStatus.FAILED) := by
  refine ⟨?_, ?_, ?_, ?_, ?_⟩
  · intro h
    simp only [retrySubmission, h]
  · intro payload hf hge
    simp only [retrySubmission, hf]
    rw [if_pos hge]
  · intro payload hf hlt
    simp only [retrySubmission, hf]
    rw [if_neg (by omega)]
    rfl
  · intro q hq
    simp only [submitPayload] at hq
    cases hf : store.find? (fun p => p.id == payloadId) with
    | none =>
      rw [hf] at hq
      simp at hq
    | some payload =>
      rw [hf] at hq
      dsimp only at hq
      split_ifs at hq with h1 h2 h3 h4 h5
      · simp at hq
      · simp at hq
      · simp at hq
      · simp at hq
      · rcases List.mem_singleton.mp hq with rfl
        exact fun hcon => PayloadStatus.noConfusion hcon
      · rcases submitLoop_saves_status cfg.maxRetries chain nowMs
          (cfg.maxRetries + 1) 1 payload none q hq with h | h <;>
          rw [h] <;> decide
  · intro st pid msg ft n q hq
    unfold markAsFailed at hq
    cases hf : st.find? (fun r => r.id == pid) with
    | none =>
      rw [hf] at hq
      exact Or.inl hq
    | some pr =>
      rw [hf] at hq
      dsimp only at hq
      unfold saveRecord at hq
      rcases List.mem_map.mp hq with ⟨a, ha, haq⟩
      by_cases hid : (a.id ==
          ({ pr with
             status := PayloadStatus.FAILED
             errorMessage := some msg
             submissionAttempts := n } : Payload).id) = true
      · rw [if_pos hid] at haq
        right
        rw [← haq]
      · rw [if_neg hid] at haq
        exact Or.inl (haq ▸ ha)

/-- Witness for C8 (amended): the FAILED payload with 3 of 5 attempts
consumed is reset to PENDING with its error cleared. -/
theorem C8_retry_reset_conditions_witness :
    (retrySubmission ⟨5⟩ exChainOk 0 [exampleFailedThrice] ("p1")).saves.head? =
      some { exampleFailedThrice with
             status := PayloadStatus.PENDING
             errorMessage := none } :=
  (C8_retry_reset_conditions ⟨5⟩ exChainOk 0 [exampleFailedThrice] ("p1")).2.2.1
    exampleFailedThrice (by rfl) (by decide)
